import Mathlib

/-!
Verification of the risk-scoring logic of the Compliance & Licensing Hub.

The scoring logic lives inline in the Risk Assessment modal
(src/unnamed/part_000, lines 889-948) and operates on the types of
src/types.ts (lines 107-127).  The definitions below are a shallow
embedding of that code: JS strings become `String`, the four-valued
rating union becomes `Risk`, truthiness of a string is the test against
the empty string, and the object-literal rank tables with their JS
fallback (`table[key] || 0`) become chains of key comparisons with
default 0.
-/

namespace ComplianceHub

/-- Four-valued rating union of src/types.ts lines 113, 124, 126:
Low, Medium, High, Critical. -/
inductive Risk
| low
| medium
| high
| critical
deriving DecidableEq, Repr, Fintype

/-- Rank table `riskOrder` of handleSubmit (part_000 line 944):
Low 1, Medium 2, High 3, Critical 4. -/
def riskOrder : Risk → Nat
| .low => 1
| .medium => 2
| .high => 3
| .critical => 4

/-- Rank table `likelihoodOrder` of part_000 line 895 together with the JS
fallback `|| 0` of line 898: an unrecognized key yields 0. -/
def likelihoodOrder (s : String) : Nat :=
  if s = "Low" then 1 else if s = "Medium" then 2 else if s = "High" then 3 else 0

/-- Rank table `impactOrder` of part_000 line 896 together with the JS
fallback `|| 0` of line 899. -/
def impactOrder (s : String) : Nat :=
  if s = "Low" then 1 else if s = "Medium" then 2 else if s = "High" then 3 else 0

/-- Operation `scoreItem` of the spec (section 4.1), as implemented inline in
handleRiskItemChange, part_000 lines 894-902.  A falsy (empty) likelihood or
impact string defaults to "Low" (the `risk.likelihood || 'Low'` of line 898);
the inherent score is the product of the two ranks, bucketed at the 6 / 4 / 2
thresholds of line 900; line 902 demotes the residual rating one level when
mitigation controls are present and the inherent rating is not Low. -/
def scoreItem (likelihood impact : String) (hasMitigation : Bool) : Risk × Risk :=
  let inherentScore :=
    likelihoodOrder (if likelihood = "" then "Low" else likelihood) *
    impactOrder (if impact = "" then "Low" else impact)
  let inherentRisk : Risk :=
    if inherentScore ≥ 6 then .critical
    else if inherentScore ≥ 4 then .high
    else if inherentScore ≥ 2 then .medium
    else .low
  let residualRisk : Risk :=
    if hasMitigation = true ∧ inherentRisk ≠ .low then
      match inherentRisk with
      | .critical => .high
      | .high => .medium
      | _ => .low
    else inherentRisk
  (inherentRisk, residualRisk)

/-- RiskItem of src/types.ts lines 119-127.  The likelihood and impact fields
are kept as raw strings: handleRiskItemChange writes the incoming string with
an untyped assignment (part_000 line 892), so the field can hold any string. -/
structure RiskItem where
  id : String
  description : String
  likelihood : String
  impact : String
  inherentRisk : Risk
  mitigationControls : List String
  residualRisk : Risk
deriving DecidableEq, Repr

/-- The fields the modal edits through handleRiskItemChange: description
(part_000 line 992), likelihood (line 997) and impact (line 1003). -/
inductive RiskField
| description
| likelihood
| impact
deriving DecidableEq, Repr

/-- The untyped field assignment of part_000 line 892, restricted to the
fields that the modal actually passes. -/
def setField (r : RiskItem) (f : RiskField) (v : String) : RiskItem :=
  match f with
  | .description => { r with description := v }
  | .likelihood => { r with likelihood := v }
  | .impact => { r with impact := v }

/-- handleRiskItemChange of part_000 lines 889-906, on a single item:
assign the field, then recompute the inherent and residual ratings, but
only when the edited field is likelihood or impact (line 894). -/
def handleRiskItemChange (r : RiskItem) (f : RiskField) (v : String) : RiskItem :=
  let r1 := setField r f v
  if f = RiskField.likelihood ∨ f = RiskField.impact then
    let scored :=
      scoreItem r1.likelihood r1.impact (decide (0 < r1.mitigationControls.length))
    { r1 with inherentRisk := scored.1, residualRisk := scored.2 }
  else r1

/-- Translation of the JS `value.split(',')` of part_000 line 932: cut the
character list at every comma. -/
def splitOnCommaAux : List Char → List Char → List String
| [], acc => [String.mk acc.reverse]
| c :: cs, acc =>
  if c = ',' then String.mk acc.reverse :: splitOnCommaAux cs []
  else splitOnCommaAux cs (c :: acc)

/-- Split a string at every comma, as `value.split(',')` does. -/
def splitOnComma (s : String) : List String :=
  splitOnCommaAux s.data []

/-- Translation of the JS `s.trim()` of part_000 line 932: drop whitespace
from both ends. -/
def trimStr (s : String) : String :=
  String.mk (((s.data.dropWhile Char.isWhitespace).reverse.dropWhile
    Char.isWhitespace).reverse)

/-- handleMitigationControlsChange of part_000 lines 930-934: split the
incoming text on commas, trim each piece, drop the empty pieces
(the `.filter(Boolean)`), and store the result.  The derived rating fields
are not touched. -/
def handleMitigationControlsChange (r : RiskItem) (v : String) : RiskItem :=
  { r with mitigationControls :=
      ((splitOnComma v).map trimStr).filter (fun s => !s.data.isEmpty) }

/-- The fresh item pushed by handleAddRiskItem, part_000 lines 911-919. -/
def newRiskItem (id : String) : RiskItem :=
  { id := id
    description := ""
    likelihood := "Low"
    impact := "Low"
    inherentRisk := .low
    mitigationControls := []
    residualRisk := .low }

/-- handleAddRiskItem of part_000 lines 908-921, on the risk list: append
one fresh item. -/
def handleAddRiskItem (risks : List RiskItem) (id : String) : List RiskItem :=
  risks ++ [newRiskItem id]

/-- RiskAssessment of src/types.ts lines 107-117; date fields and the
status union are kept as strings. -/
structure RiskAssessment where
  id : String
  assessmentDate : String
  assessedBy : String
  scope : String
  identifiedRisks : List RiskItem
  overallRiskRating : Risk
  mitigationPlan : String
  status : String
  reviewDate : String
deriving DecidableEq, Repr

/-- Operation `scoreAssessment` of the spec (section 4.1), as implemented by
the reduce of handleSubmit, part_000 lines 943-946: fold over the items,
keeping the residual rating with the strictly larger riskOrder, starting
from Low. -/
def scoreAssessment (items : List RiskItem) : Risk :=
  items.foldl
    (fun mx r => if riskOrder r.residualRisk > riskOrder mx then r.residualRisk else mx)
    Risk.low

/-- Observable outcome of handleSubmit: either the error notification of
part_000 line 939 with no submission, or the call to onSubmit of line 947. -/
inductive SubmitResult
| rejected (message : String)
| submitted (a : RiskAssessment)
deriving DecidableEq, Repr

/-- handleSubmit of part_000 lines 936-948: guard on a truthy scope and a
nonempty risk list; on failure only a notification is emitted and the form
state is untouched; on success onSubmit receives the form state with the
recomputed overall rating. -/
def handleSubmit (s : RiskAssessment) : SubmitResult :=
  if s.scope = "" ∨ s.identifiedRisks.length = 0 then
    .rejected "Please define the scope and at least one risk item for the assessment."
  else
    .submitted { s with overallRiskRating := scoreAssessment s.identifiedRisks }

/-- The three valid ordinal values of likelihood and impact
(src/types.ts lines 122-123). -/
inductive Level
| low
| medium
| high
deriving DecidableEq, Repr, Fintype

/-- The string carried by each ordinal value. -/
def Level.str : Level → String
| .low => "Low"
| .medium => "Medium"
| .high => "High"

/-- Rank mapping of the spec (section 4.1): Low 1, Medium 2, High 3. -/
def Level.rank : Level → Nat
| .low => 1
| .medium => 2
| .high => 3

/-- Modelled from the spec wording of section 4.1: bucket
rank(likelihood) * rank(impact) at the 6 / 4 / 2 thresholds. -/
def inherentRiskSpec (l i : Level) : Risk :=
  let score := l.rank * i.rank
  if score ≥ 6 then .critical
  else if score ≥ 4 then .high
  else if score ≥ 2 then .medium
  else .low

/-- Modelled from the spec wording of section 4.1: demote one level,
Critical to High, High to Medium, Medium to Low, Low stays Low. -/
def demoteSpec : Risk → Risk
| .critical => .high
| .high => .medium
| .medium => .low
| .low => .low

/-- Concrete item with residual rating Low, used as test input. -/
def itemLowRes : RiskItem :=
  { id := "a"
    description := ""
    likelihood := "Low"
    impact := "Low"
    inherentRisk := .low
    mitigationControls := []
    residualRisk := .low }

/-- Concrete item with residual rating High, used as test input. -/
def itemHighRes : RiskItem :=
  { id := "b"
    description := ""
    likelihood := "High"
    impact := "Medium"
    inherentRisk := .critical
    mitigationControls := ["kyc"]
    residualRisk := .high }

/-- Concrete item with residual rating Medium, used as test input. -/
def itemMediumRes : RiskItem :=
  { id := "c"
    description := ""
    likelihood := "Medium"
    impact := "Medium"
    inherentRisk := .high
    mitigationControls := ["monitoring"]
    residualRisk := .medium }

/-- Concrete failing item for the invariant claim: Critical inherent and
residual rating, no mitigation controls; its stored derived fields agree
with scoreItem before the edit. -/
def c5Item : RiskItem :=
  { id := "r1"
    description := "unmitigated critical risk"
    likelihood := "High"
    impact := "High"
    inherentRisk := .critical
    mitigationControls := []
    residualRisk := .critical }

/-- Concrete submittable assessment, used as test input. -/
def demoAssessment : RiskAssessment :=
  { id := "a1"
    assessmentDate := ""
    assessedBy := "Current User"
    scope := "New Feature"
    identifiedRisks := [itemHighRes]
    overallRiskRating := .low
    mitigationPlan := ""
    status := "Pending"
    reviewDate := "" }

/-- C1: for every likelihood and impact among the three ordinals, scoreItem
buckets rank(likelihood) * rank(impact) at the 6 / 4 / 2 thresholds with
ranks matching Low 1, Medium 2, High 3; the boundary scores resolve to the
higher bucket: a score of exactly 4 (Medium, Medium) gives High and a score
of exactly 6 (Medium, High) gives Critical. -/
theorem c1_inherent_table :
    (∀ l i : Level, ∀ m : Bool, (scoreItem l.str i.str m).1 = inherentRiskSpec l i) ∧
    Level.rank Level.low * Level.rank Level.medium = 2 ∧
    Level.rank Level.medium * Level.rank Level.medium = 4 ∧
    Level.rank Level.medium * Level.rank Level.high = 6 ∧
    inherentRiskSpec Level.medium Level.medium = Risk.high ∧
    inherentRiskSpec Level.medium Level.high = Risk.critical := by
  decide

/-- C2: for every valid likelihood, impact and mitigation flag, the residual
rating equals the inherent rating when there is no mitigation, and the
one-level demotion of the inherent rating (with Low as floor) when there is. -/
theorem c2_residual_demotion :
    ∀ l i : Level, ∀ m : Bool,
      (scoreItem l.str i.str m).2 =
        if m then demoteSpec (scoreItem l.str i.str m).1
        else (scoreItem l.str i.str m).1 := by
  decide

/-- The fold step of scoreAssessment never lowers the accumulator rank. -/
theorem riskStep_le_acc (b : Risk) (x : RiskItem) :
    riskOrder b ≤
      riskOrder (if riskOrder x.residualRisk > riskOrder b then x.residualRisk else b) := by
  split
  · omega
  · exact Nat.le_refl _

/-- The fold step of scoreAssessment dominates the rank of the item folded in. -/
theorem riskStep_le_item (b : Risk) (x : RiskItem) :
    riskOrder x.residualRisk ≤
      riskOrder (if riskOrder x.residualRisk > riskOrder b then x.residualRisk else b) := by
  split
  · exact Nat.le_refl _
  · omega

/-- The fold step of scoreAssessment returns the accumulator or the item value. -/
theorem riskStep_cases (b : Risk) (x : RiskItem) :
    (if riskOrder x.residualRisk > riskOrder b then x.residualRisk else b) = b ∨
    (if riskOrder x.residualRisk > riskOrder b then x.residualRisk else b) = x.residualRisk := by
  split
  · exact Or.inr rfl
  · exact Or.inl rfl

/-- A rating of rank at most one is Low. -/
theorem riskOrder_le_one : ∀ r : Risk, riskOrder r ≤ 1 → r = Risk.low := by
  decide

/-- The fold of scoreAssessment, from any accumulator, dominates the
accumulator and every item, and is the accumulator or some item value. -/
theorem scoreAssessment_fold_spec (l : List RiskItem) :
    ∀ b : Risk,
      riskOrder b ≤ riskOrder (l.foldl
        (fun mx r => if riskOrder r.residualRisk > riskOrder mx then r.residualRisk else mx) b) ∧
      (∀ r, r ∈ l → riskOrder r.residualRisk ≤ riskOrder (l.foldl
        (fun mx r => if riskOrder r.residualRisk > riskOrder mx then r.residualRisk else mx) b)) ∧
      ((l.foldl
        (fun mx r => if riskOrder r.residualRisk > riskOrder mx then r.residualRisk else mx) b) = b ∨
       ∃ r, r ∈ l ∧ (l.foldl
        (fun mx r => if riskOrder r.residualRisk > riskOrder mx then r.residualRisk else mx) b) = r.residualRisk) := by
  induction l with
  | nil =>
    intro b
    refine ⟨Nat.le_refl _, ?_, Or.inl rfl⟩
    intro r hr
    exact absurd hr (List.not_mem_nil r)
  | cons x xs ih =>
    intro b
    simp only [List.foldl_cons]
    obtain ⟨h1, h2, h3⟩ :=
      ih (if riskOrder x.residualRisk > riskOrder b then x.residualRisk else b)
    refine ⟨Nat.le_trans (riskStep_le_acc b x) h1, ?_, ?_⟩
    · intro r hr
      rcases List.mem_cons.mp hr with h | h
      · subst h
        exact Nat.le_trans (riskStep_le_item b r) h1
      · exact h2 r h
    · rcases h3 with h | ⟨r, hr, he⟩
      · rcases riskStep_cases b x with hc | hc
        · exact Or.inl (h.trans hc)
        · exact Or.inr ⟨x, List.mem_cons_self x xs, h.trans hc⟩
      · exact Or.inr ⟨r, List.mem_cons_of_mem x hr, he⟩

/-- C3: scoreAssessment returns the maximum residual rating of the list under
the riskOrder ranking (it dominates every item and is attained by one of
them), and returns Low on the empty list rather than failing. -/
theorem c3_overall_is_max (items : List RiskItem) :
    (items = [] → scoreAssessment items = Risk.low) ∧
    (∀ r, r ∈ items → riskOrder r.residualRisk ≤ riskOrder (scoreAssessment items)) ∧
    (items ≠ [] → ∃ r, r ∈ items ∧ scoreAssessment items = r.residualRisk) := by
  obtain ⟨h1, h2, h3⟩ := scoreAssessment_fold_spec items Risk.low
  refine ⟨?_, h2, ?_⟩
  · intro he
    subst he
    rfl
  · intro hne
    rcases h3 with h | hex
    · obtain ⟨x, xs, rfl⟩ := List.exists_cons_of_ne_nil hne
      have hx := h2 x (List.mem_cons_self x xs)
      have hx2 : riskOrder x.residualRisk ≤ 1 := by
        rw [h] at hx
        exact hx
      have hres : x.residualRisk = Risk.low := riskOrder_le_one _ hx2
      refine ⟨x, List.mem_cons_self x xs, ?_⟩
      rw [hres]
      exact h
    · exact hex

/-- C3 witness: on the empty list the overall rating is Low, and on a
concrete three-item list the overall rating is attained by a member. -/
theorem c3_overall_is_max_witness :
    scoreAssessment [] = Risk.low ∧
    ∃ r, r ∈ [itemLowRes, itemHighRes, itemMediumRes] ∧
      scoreAssessment [itemLowRes, itemHighRes, itemMediumRes] = r.residualRisk :=
  ⟨(c3_overall_is_max []).1 rfl,
   (c3_overall_is_max [itemLowRes, itemHighRes, itemMediumRes]).2.2 (by simp)⟩

/-- C4 counterexample: at the out-of-domain likelihood "Extreme" — the very
input the spec names as the failing one — the code does not fail with an
InvalidEnum error: it produces the rating pair (Low, Low). -/
theorem c4_invalid_enum_counterexample :
    scoreItem "Extreme" "Low" false = (Risk.low, Risk.low) := by
  decide

/-- C4 amended: an out-of-domain, non-empty likelihood is given rank 0 by the
fallback of the rank lookup, so the inherent score is 0 and scoreItem returns
the pair (Low, Low); no error is signalled.  (The empty string is instead
treated as Low, and the impact argument behaves symmetrically.) -/
theorem c4_invalid_enum_amended (l i : String) (m : Bool)
    (h1 : l ≠ "Low") (h2 : l ≠ "Medium") (h3 : l ≠ "High") (h4 : l ≠ "") :
    scoreItem l i m = (Risk.low, Risk.low) := by
  simp [scoreItem, likelihoodOrder, h1, h2, h3, h4]

/-- C4 witness: the amended statement at the concrete out-of-domain
likelihood "Extreme" with impact "High" and mitigation present. -/
theorem c4_invalid_enum_witness :
    scoreItem "Extreme" "High" true = (Risk.low, Risk.low) :=
  c4_invalid_enum_amended "Extreme" "High" true
    (by decide) (by decide) (by decide) (by decide)

/-- C5: the stored derived fields of c5Item agree with scoreItem, yet after
handleMitigationControlsChange adds a control the stored residual rating is
still Critical while scoreItem now derives High from the very same
likelihood, impact and controls — the consistency invariant is broken by the
mitigation-controls edit, which never recomputes the derived fields. -/
theorem c5_mitigation_edit_stales_residual :
    (scoreItem c5Item.likelihood c5Item.impact
      (decide (0 < c5Item.mitigationControls.length))).2 = c5Item.residualRisk ∧
    0 < (handleMitigationControlsChange c5Item "x").mitigationControls.length ∧
    (handleMitigationControlsChange c5Item "x").residualRisk = Risk.critical ∧
    (scoreItem (handleMitigationControlsChange c5Item "x").likelihood
      (handleMitigationControlsChange c5Item "x").impact
      (decide (0 < (handleMitigationControlsChange c5Item "x").mitigationControls.length))).2
      = Risk.high := by
  decide

/-- C6: with the impact fixed, raising the likelihood one step (Low to Medium
or Medium to High) never lowers the rank of the inherent rating returned by
scoreItem, and symmetrically for the impact with the likelihood fixed. -/
theorem c6_monotonicity :
    ∀ x : Level, ∀ m : Bool,
      riskOrder (scoreItem Level.low.str x.str m).1 ≤
        riskOrder (scoreItem Level.medium.str x.str m).1 ∧
      riskOrder (scoreItem Level.medium.str x.str m).1 ≤
        riskOrder (scoreItem Level.high.str x.str m).1 ∧
      riskOrder (scoreItem x.str Level.low.str m).1 ≤
        riskOrder (scoreItem x.str Level.medium.str m).1 ∧
      riskOrder (scoreItem x.str Level.medium.str m).1 ≤
        riskOrder (scoreItem x.str Level.high.str m).1 := by
  decide

/-- The fold step of scoreAssessment is commutative in the two items folded
in, from any accumulator. -/
theorem riskAccum_comm :
    ∀ b a c : Risk,
      (if riskOrder c > riskOrder (if riskOrder a > riskOrder b then a else b) then c
       else if riskOrder a > riskOrder b then a else b) =
      (if riskOrder a > riskOrder (if riskOrder c > riskOrder b then c else b) then a
       else if riskOrder c > riskOrder b then c else b) := by
  decide

/-- The fold of scoreAssessment is invariant under permutation of the list,
from any accumulator. -/
theorem scoreAssessment_fold_perm {l1 l2 : List RiskItem} (h : l1.Perm l2) :
    ∀ b : Risk,
      l1.foldl
        (fun mx r => if riskOrder r.residualRisk > riskOrder mx then r.residualRisk else mx) b =
      l2.foldl
        (fun mx r => if riskOrder r.residualRisk > riskOrder mx then r.residualRisk else mx) b := by
  induction h with
  | nil =>
    intro b
    rfl
  | cons x _ ih =>
    intro b
    simp only [List.foldl_cons]
    exact ih _
  | swap x y l =>
    intro b
    simp only [List.foldl_cons]
    congr 1
    exact riskAccum_comm b y.residualRisk x.residualRisk
  | trans _ _ ih1 ih2 =>
    intro b
    rw [ih1, ih2]

/-- C7: scoreAssessment returns the same overall rating on every permutation
of the risk list — the aggregation is an order-independent maximum. -/
theorem c7_order_independent (l1 l2 : List RiskItem) (h : l1.Perm l2) :
    scoreAssessment l1 = scoreAssessment l2 :=
  scoreAssessment_fold_perm h Risk.low

/-- C7 witness: a concrete three-item list and a rearrangement of it get the
same overall rating. -/
theorem c7_order_independent_witness :
    scoreAssessment [itemLowRes, itemHighRes, itemMediumRes] =
      scoreAssessment [itemMediumRes, itemLowRes, itemHighRes] :=
  c7_order_independent [itemLowRes, itemHighRes, itemMediumRes]
    [itemMediumRes, itemLowRes, itemHighRes] (by decide)

/-- C8: scoreItem is deterministic — two calls whose likelihood, impact and
mitigation-flag arguments coincide return the identical rating pair; the
result is a function of exactly those three arguments. -/
theorem c8_deterministic (l1 i1 : String) (m1 : Bool) (l2 i2 : String) (m2 : Bool)
    (hl : l1 = l2) (hi : i1 = i2) (hm : m1 = m2) :
    scoreItem l1 i1 m1 = scoreItem l2 i2 m2 := by
  rw [hl, hi, hm]

/-- C8 witness: two syntactically separate calls at the same concrete
arguments coincide. -/
theorem c8_deterministic_witness :
    scoreItem "High" "Medium" true = scoreItem "High" "Medium" true :=
  c8_deterministic "High" "Medium" true "High" "Medium" true rfl rfl rfl

/-- C9: a freshly added risk item carries likelihood Low, impact Low, no
mitigation controls, inherent rating Low and residual rating Low, and its
stored derived fields equal exactly what scoreItem derives from its own
inputs. -/
theorem c9_new_item_consistent (id : String) :
    (newRiskItem id).likelihood = "Low" ∧
    (newRiskItem id).impact = "Low" ∧
    (newRiskItem id).mitigationControls = [] ∧
    (newRiskItem id).inherentRisk = Risk.low ∧
    (newRiskItem id).residualRisk = Risk.low ∧
    scoreItem (newRiskItem id).likelihood (newRiskItem id).impact
      (decide (0 < (newRiskItem id).mitigationControls.length)) =
      ((newRiskItem id).inherentRisk, (newRiskItem id).residualRisk) :=
  ⟨rfl, rfl, rfl, rfl, rfl, rfl⟩

/-- C10: handleSubmit calls onSubmit exactly when the scope is a nonempty
string and at least one risk item exists; the submitted assessment is the
form state with the recomputed overall rating, so it never carries an empty
risk list; otherwise the outcome is only the error notification and the form
state is untouched. -/
theorem c10_submit_guard (s : RiskAssessment) :
    ((∃ a, handleSubmit s = SubmitResult.submitted a) ↔
      (s.scope ≠ "" ∧ s.identifiedRisks ≠ [])) ∧
    (∀ a, handleSubmit s = SubmitResult.submitted a →
      a.identifiedRisks ≠ [] ∧
      a = { s with overallRiskRating := scoreAssessment s.identifiedRisks }) ∧
    ((s.scope = "" ∨ s.identifiedRisks = []) →
      handleSubmit s = SubmitResult.rejected
        "Please define the scope and at least one risk item for the assessment.") := by
  by_cases hc : s.scope = "" ∨ s.identifiedRisks.length = 0
  · have hr : handleSubmit s = SubmitResult.rejected
        "Please define the scope and at least one risk item for the assessment." := by
      unfold handleSubmit
      rw [if_pos hc]
    refine ⟨?_, ?_, ?_⟩
    · constructor
      · rintro ⟨a, ha⟩
        rw [hr] at ha
        exact SubmitResult.noConfusion ha
      · rintro ⟨hs, hl⟩
        exfalso
        rcases hc with h | h
        · exact hs h
        · exact hl (List.length_eq_zero.mp h)
    · intro a ha
      rw [hr] at ha
      exact SubmitResult.noConfusion ha
    · intro _
      exact hr
  · have hsub : handleSubmit s =
        SubmitResult.submitted { s with overallRiskRating := scoreAssessment s.identifiedRisks } := by
      unfold handleSubmit
      rw [if_neg hc]
    push_neg at hc
    refine ⟨?_, ?_, ?_⟩
    · constructor
      · intro _
        refine ⟨hc.1, fun he => hc.2 ?_⟩
        rw [he]
        rfl
      · intro _
        exact ⟨_, hsub⟩
    · intro a ha
      rw [hsub] at ha
      have hae : { s with overallRiskRating := scoreAssessment s.identifiedRisks } = a :=
        by injection ha
      refine ⟨?_, hae.symm⟩
      rw [← hae]
      intro he
      exact hc.2 (by rw [show s.identifiedRisks = ([] : List RiskItem) from he]; rfl)
    · rintro (h | h)
      · exact absurd h hc.1
      · exfalso
        exact hc.2 (by rw [h]; rfl)

/-- C10 witness: a concrete assessment with a nonempty scope and one risk
item is submitted. -/
theorem c10_submit_guard_witness :
    ∃ a, handleSubmit demoAssessment = SubmitResult.submitted a :=
  (c10_submit_guard demoAssessment).1.mpr ⟨by decide, by decide⟩

end ComplianceHub
